import Mathlib

/-!
Shallow embedding of the modem command-session engine of
`gnss_performance_test` (files `dynamic_logging.py` and `dynamic_parser.py`).

The serial port is modelled as a response oracle: each call to
`com_port_read_write` in the source either returns the decoded response text
or `None` (on transport/decode error); here every exchange consumes the next
value of a `List (Option String)` or an indexed oracle `Nat → Option String`.
Python substring tests (`pat in s`), `str.startswith` and `str.splitlines`
are embedded as executable functions over character lists.  Python floats in
`calculate_signal_quality` are embedded as rationals; every comparison the
code performs there is exact at the decimal literals involved, so the
rational semantics agrees with the float semantics on those comparisons.
-/

namespace GnssPerf

/-- Boolean test that the first character list is a prefix of the second
(used to embed Python `str.startswith` and as the matching step of the
substring search that embeds the Python `in` operator). -/
def charsPrefixOf : List Char → List Char → Bool
  | [], _ => true
  | _ :: _, [] => false
  | a :: as, b :: bs => a == b && charsPrefixOf as bs

/-- Substring search over character lists: does `pat` occur (contiguously)
anywhere in the second list? -/
def substrAux (pat : List Char) : List Char → Bool
  | [] => charsPrefixOf pat []
  | c :: rest => charsPrefixOf pat (c :: rest) || substrAux pat rest

/-- Embedding of the Python expression `pat in s` on strings. -/
def hasSubstr (s pat : String) : Bool :=
  substrAux pat.data s.data

/-- Embedding of the Python expression `s.startswith(pat)`. -/
def pyStartsWith (s pat : String) : Bool :=
  charsPrefixOf pat.data s.data

/-- Helper for `pySplitlines`: the accumulator holds the current line in
reverse.  Splits at `\r\n`, `\r` and `\n`; a trailing fragment becomes a
final line only when nonempty, matching Python `str.splitlines` on the
common line terminators actually produced by the modem. -/
def splitlinesAux : List Char → List Char → List String
  | [], acc => if acc.isEmpty then [] else [String.mk acc.reverse]
  | '\x0d' :: '\x0a' :: rest, acc => String.mk acc.reverse :: splitlinesAux rest []
  | '\x0d' :: rest, acc => String.mk acc.reverse :: splitlinesAux rest []
  | '\x0a' :: rest, acc => String.mk acc.reverse :: splitlinesAux rest []
  | c :: rest, acc => splitlinesAux rest (c :: acc)

/-- Embedding of Python `s.splitlines()` (for the terminators `\n`, `\r`,
`\r\n`). -/
def pySplitlines (s : String) : List String :=
  splitlinesAux s.data []

/-- Embedding of Python `" ".join(items)`. -/
def joinSpace : List String → String
  | [] => ""
  | [x] => x
  | x :: y :: xs => x ++ " " ++ joinSpace (y :: xs)

/-- Configuration command sequence `cfg_commands` of `dynamic_logging.py`. -/
def cfg_commands : List String :=
  ["AT",
   "AT+COPS=2",
   "AT+CGDCONT=1,\"IP\",\"wbdata\"",
   "AT+COPS=0",
   "AT+WS46=30",
   "AT#WS46=0,0",
   "AT#BND=0,0,524420,0,0",
   "AT#REBOOT"]

/-- Command list `tcp_connect_commands` of `dynamic_logging.py`. -/
def tcp_connect_commands : List String :=
  ["AT#SGACT?",
   "AT#SD=1,0,7,\"echo.u-blox.com\",0,0,1"]

/-- Command list `message_to_server` of `dynamic_logging.py`. -/
def message_to_server : List String :=
  ["AT#SSEND=1",
   "TCP_TEST_OK",
   "\x1a"]

/-- Command list `socket_commands` of `dynamic_logging.py`. -/
def socket_commands : List String :=
  ["AT#SI",
   "AT#SS"]

/-- Constant `msg_in_response` of `dynamic_logging.py`. -/
def msg_in_response : String := "TCP_TEST_OK"

/-- Constant `message_from_server` of `dynamic_logging.py`. -/
def message_from_server : String := "AT#SRECV=1,1500"

/-- Constant `cops_check_command` of `dynamic_logging.py`. -/
def cops_check_command : String := "AT+COPS?"

/-- Command list `flight_mode_commands` of `dynamic_logging.py`. -/
def flight_mode_commands : List String :=
  ["AT+CFUN=1",
   "AT+CFUN=4"]

/-- Constant `pump_dummy_msg` of `dynamic_logging.py` (large fixed payload,
terminated by the control byte `\x1a`). -/
def pump_dummy_msg : String :=
  "aasdgajgfsdfhgafdsakjfgadskjfgiweuryaioweuryiuwyfhaksjdbvdsmbvkdshakfhdaklsfhklahfksdfhakdashfklsdhfkasdfkshalkfhafklhdsafdksjahfkdashfklahfdklsajfhkasdhfahieuwryioqyeifofiufbvyiyviyvqioiqoviuytvqiobyvqotbvyqtvyqoityvqoitbvqtvbytebvqityvetbvyitvybtvqiytqboitvyotvyqityqiwebvotyibwevytibvweytiwytvibakhksgdkjasj\x1a"

/-- Local variable `rsrp_quality` of `calculate_signal_quality`
(`dynamic_parser.py`, lines 206-214). -/
def rsrp_quality (rsrp : ℤ) : ℤ :=
  if rsrp ≥ -84 then 40
  else if rsrp ≥ -102 then 30
  else if rsrp ≥ -111 then 20
  else 10

/-- Local variable `rssi_quality` of `calculate_signal_quality`
(`dynamic_parser.py`, lines 216-224). -/
def rssi_quality (rssi : ℤ) : ℤ :=
  if rssi ≥ -65 then 40
  else if rssi ≥ -75 then 30
  else if rssi ≥ -85 then 20
  else 10

/-- Local variable `rsrq_quality` of `calculate_signal_quality`
(`dynamic_parser.py`, lines 226-232).  Note that the second branch of the
source tests `rssi >= -6`, not `rsrq`, so the function takes both
arguments. -/
def rsrq_quality (rssi : ℤ) (rsrq : ℚ) : ℤ :=
  if rsrq ≥ -5 then 40
  else if rssi ≥ -6 then 30
  else 10

/-- Local variable `sinr_quality` of `calculate_signal_quality`
(`dynamic_parser.py`, lines 234-242). -/
def sinr_quality (sinr : ℚ) : ℤ :=
  if sinr ≥ 12.5 then 40
  else if sinr ≥ 10 then 30
  else if sinr ≥ 7 then 20
  else 10

/-- Function `calculate_signal_quality` of `dynamic_parser.py`
(lines 194-245): the mean of the four component scores, as in the source's
final `(rsrp_quality + rssi_quality + rsrq_quality + sinr_quality) / 4`. -/
def calculate_signal_quality (rsrp rssi : ℤ) (rsrq sinr : ℚ) : ℚ :=
  ((rsrp_quality rsrp + rssi_quality rssi + rsrq_quality rssi rsrq
      + sinr_quality sinr : ℤ) : ℚ) / 4

/-- Configuration loop of `configure_sim_module` (`dynamic_logging.py`,
lines 132-141): each command is exchanged in order against the next oracle
response; a `None` response is skipped silently (the loop continues), a
response containing `"OK"` is collected, and any other response aborts the
loop with `False`.  Returns the outcome together with the list of commands
actually sent; a missing oracle entry behaves like a `None` response. -/
def configLoop : List String → List (Option String) → Bool × List String
  | [], _ => (true, [])
  | cmd :: cmds, [] =>
    let p := configLoop cmds []
    (p.1, cmd :: p.2)
  | cmd :: cmds, none :: rs =>
    let p := configLoop cmds rs
    (p.1, cmd :: p.2)
  | cmd :: cmds, some r :: rs =>
    if hasSubstr r "OK" then
      let p := configLoop cmds rs
      (p.1, cmd :: p.2)
    else (false, [cmd])

/-- Registration polling loop of `configure_sim_module`
(`dynamic_logging.py`, lines 146-156): `k` is the index of the next poll in
the oracle, the second argument the remaining retry budget.  A poll whose
response contains the character `'8'` (the Python test `'8' in
cops_response`) returns `True` at once; a `None` response and a response
without `'8'` both fall through to the next attempt.  Exhausting the budget
falls off the loop (Python returns `None`, which the callers use as a
falsy value, embedded as `false`).  The second component counts the polls
performed. -/
def awaitRegLoop (oracle : Nat → Option String) : Nat → Nat → Bool × Nat
  | _, 0 => (false, 0)
  | k, rem + 1 =>
    match oracle k with
    | some r =>
      if hasSubstr r "8" then (true, 1)
      else
        let p := awaitRegLoop oracle (k + 1) rem
        (p.1, p.2 + 1)
    | none =>
      let p := awaitRegLoop oracle (k + 1) rem
      (p.1, p.2 + 1)

/-- Registration-polling phase of `configure_sim_module`, started at poll
index `0` with budget `maxRetries` (source: `for attempt in
range(max_retries)`). -/
def await_registration (oracle : Nat → Option String) (maxRetries : Nat) :
    Bool × Nat :=
  awaitRegLoop oracle 0 maxRetries

/-- Function `configure_sim_module` of `dynamic_logging.py` (lines
130-156): the configuration loop over `cfgResps`, and on its success the
registration polling loop against `copsOracle`.  A config-loop failure
returns `False` before any poll; registration exhaustion yields Python
`None`, falsy at every caller, embedded as `false`. -/
def configure_sim_module (cmds : List String) (cfgResps : List (Option String))
    (copsOracle : Nat → Option String) (maxRetries : Nat) : Bool :=
  if (configLoop cmds cfgResps).1 then (awaitRegLoop copsOracle 0 maxRetries).1
  else false

/-- Loop body trace of `pump_data_to_server` (`dynamic_logging.py`, lines
164-171): each iteration sends `AT#SSEND=1` and then the payload
`pump_dummy_msg`; `oracle k` is the response to the k-th payload message.
The loop breaks when the payload response is non-`None` and lacks `"OK"`
(`if msg_response is not None and 'OK' not in msg_response: break`);
otherwise the message counter is decremented and the loop continues.
Returns the list of commands sent by the loop. -/
def pumpLoop (oracle : Nat → Option String) : Nat → Nat → List String
  | _, 0 => []
  | k, n + 1 =>
    "AT#SSEND=1" :: pump_dummy_msg ::
      (match oracle k with
       | some r => if hasSubstr r "OK" then pumpLoop oracle (k + 1) n else []
       | none => pumpLoop oracle (k + 1) n)

/-- Function `pump_data_to_server` of `dynamic_logging.py` (lines 159-173)
as the trace of commands it sends: context activation, socket dial, the
bounded send loop, socket shutdown. -/
def pump_data_to_server (oracle : Nat → Option String) (maxMsgCount : Nat) :
    List String :=
  "AT#SGACT=1,1" :: "AT#SD=1,0,7,\"echo.u-blox.com\",0,0,1" ::
    (pumpLoop oracle 0 maxMsgCount ++ ["AT#SH=1"])

/-- Responses the serial port gives to the stages of
`tcp_connection_test`, one field per stage of the source function. -/
structure TcpResponses where
  tcpResp : List (Option String)
  msgToResp : List (Option String)
  msgFromResp : Option String
  sockResp : List (Option String)

/-- Message-read stage of `tcp_connection_test` (`dynamic_logging.py`,
lines 187-198): on a non-`None` response, append `"#MSG:"` and then the
first response line containing `msg_in_response` (if any); on a `None`
response append the explicit marker `"#MSG: None"`. -/
def msgStagePart (r : Option String) : List String :=
  match r with
  | some response =>
    "#MSG:" ::
      (match (pySplitlines response).find? (fun l => hasSubstr l msg_in_response) with
       | some l => [l]
       | none => [])
  | none => ["#MSG: None"]

/-- Per-command socket-status step of `tcp_connection_test`
(`dynamic_logging.py`, lines 200-213): on a non-`None` response, the first
line starting with `"#SI: 1"` or `"#SS: 1"` is appended; a `None` response
appends nothing. -/
def sockStagePart (r : Option String) : List String :=
  match r with
  | some s =>
    match (pySplitlines s).find?
        (fun l => pyStartsWith l "#SI: 1" || pyStartsWith l "#SS: 1") with
    | some l => [l]
    | none => []
  | none => []

/-- Socket-status loop of `tcp_connection_test`: one exchange per command
in `sock_commands`, responses taken positionally (missing oracle entries
behave like `None`). -/
def sockLoop : List String → List (Option String) → List String
  | [], _ => []
  | _ :: cmds, [] => sockStagePart none ++ sockLoop cmds []
  | _ :: cmds, r :: rs => sockStagePart r ++ sockLoop cmds rs

/-- The `message_response` list assembled by `tcp_connection_test`. -/
def tcpParts (resp : TcpResponses) : List String :=
  msgStagePart resp.msgFromResp ++ sockLoop socket_commands resp.sockResp

/-- Function `tcp_connection_test` of `dynamic_logging.py` (lines
176-215): the result string (`" ".join(message_response)`) together with
the trace of commands sent.  The source has no abort path: the responses
of the `tcp_commands` and `msg_to_commands` stages are only logged, and
every stage executes whatever the previous stages returned. -/
def tcp_connection_test (resp : TcpResponses) : String × List String :=
  (joinSpace (tcpParts resp),
   tcp_connect_commands ++ message_to_server ++ [message_from_server]
     ++ socket_commands)

/-- Function `check_network_status` of `dynamic_logging.py` (lines
218-229): keeps the response lines starting with `"+CEREG:"`, `"+CREG:"`
or `"+COPS:"` and joins them with spaces; a `None` response yields the
join of the empty list. -/
def check_network_status (r : Option String) : String :=
  match r with
  | some s =>
    joinSpace ((pySplitlines s).filter
      (fun l => pyStartsWith l "+CEREG:" || pyStartsWith l "+CREG:"
        || pyStartsWith l "+COPS:"))
  | none => joinSpace []

/-- Function `check_rf_status` of `dynamic_logging.py` (lines 232-244):
keeps the response lines starting with `"#RFSTS:"` and joins them with
spaces. -/
def check_rf_status (r : Option String) : String :=
  match r with
  | some s => joinSpace ((pySplitlines s).filter (fun l => pyStartsWith l "#RFSTS:"))
  | none => joinSpace []

/-- Marker written by the enable phase of
`pump_modem_data_with_flight_mode` (`dynamic_logging.py`, line 276); the
written line is this marker prefixed by a timestamp and a colon. -/
def pump_marker : String := "\x27#Pumping Data To Server...\x27"

/-- Marker written by the disable phase of
`pump_modem_data_with_flight_mode` (`dynamic_logging.py`, line 284). -/
def flight_marker : String := "\x27#Flight Mode Active...\x27"

/-- One pass of the `for command in phone_mode_commands` loop of
`pump_modem_data_with_flight_mode` (`dynamic_logging.py`, lines 264-287):
a command containing `'1'` re-checks registration, consuming the next
COPS response, and writes the pumping marker exactly when that response is
non-`None` and contains `'8'`; otherwise a command containing `'4'` writes
the flight-mode marker.  Returns the markers written and the unconsumed
COPS responses. -/
def runFlightCmds : List String → List (Option String) →
    List String × List (Option String)
  | [], cops => ([], cops)
  | cmd :: rest, cops =>
    if hasSubstr cmd "1" then
      match cops with
      | [] =>
        let p := runFlightCmds rest []
        (p.1, p.2)
      | r :: copsRest =>
        let entry : List String :=
          match r with
          | some s => if hasSubstr s "8" then [pump_marker] else []
          | none => []
        let p := runFlightCmds rest copsRest
        (entry ++ p.1, p.2)
    else if hasSubstr cmd "4" then
      let p := runFlightCmds rest cops
      (flight_marker :: p.1, p.2)
    else runFlightCmds rest cops

/-- The `while True` loop of `pump_modem_data_with_flight_mode`, unrolled
for a given number of cycles: each cycle runs the fixed
`flight_mode_commands` pair, threading the COPS response oracle. -/
def runFlightCycles : Nat → List (Option String) → List String
  | 0, _ => []
  | n + 1, cops =>
    let p := runFlightCmds flight_mode_commands cops
    p.1 ++ runFlightCycles n p.2

/-- Responses consumed by one iteration of the telemetry loop of
`read_and_log_modem_data`, plus the timestamp string taken at the write. -/
structure TelemetryInput where
  tcpResp : TcpResponses
  nwEpsResp : Option String
  nwResp : Option String
  rfResp : Option String
  timestamp : String

/-- One record of the telemetry loop (`dynamic_logging.py`, line 322):
`f"{timestamp}:{rf_status}:{tcp_status}:{nw_eps_status}:{nw_status}\n"`. -/
def telemetryRecord (inp : TelemetryInput) : String :=
  inp.timestamp ++ ":" ++ check_rf_status inp.rfResp ++ ":"
    ++ (tcp_connection_test inp.tcpResp).1 ++ ":"
    ++ check_network_status inp.nwEpsResp ++ ":"
    ++ check_network_status inp.nwResp ++ "\n"

/-- The `while True` loop of `read_and_log_modem_data`
(`dynamic_logging.py`, lines 309-324), unrolled over a list of iteration
inputs: the records appended to the session log, in order. -/
def read_and_log_modem_data : List TelemetryInput → List String
  | [] => []
  | inp :: rest => telemetryRecord inp :: read_and_log_modem_data rest

/-- The success test of one registration poll, exactly the branch condition
of `configure_sim_module` lines 148-149: the response is non-`None` and
contains the character `'8'`. -/
def pollSuccess (oracle : Nat → Option String) (i : Nat) : Bool :=
  match oracle i with
  | some r => hasSubstr r "8"
  | none => false

/-- Concrete telemetry-loop iteration input (every exchange failing with
`None`) used to instantiate the record-format theorem. -/
def inp0 : TelemetryInput :=
  ⟨⟨[], [], none, []⟩, none, none, none, "2024-09-16 13:23:58"⟩

/-- Every character list is a prefix of itself extended by anything. -/
theorem charsPrefixOf_self_append (l m : List Char) :
    charsPrefixOf l (l ++ m) = true := by
  induction l with
  | nil => rfl
  | cons a as ih => simp [charsPrefixOf, ih]

/-- The joined string starts with its first part. -/
theorem pyStartsWith_joinSpace (x : String) (xs : List String) :
    pyStartsWith (joinSpace (x :: xs)) x = true := by
  cases xs with
  | nil =>
    show charsPrefixOf x.data x.data = true
    simpa using charsPrefixOf_self_append x.data []
  | cons y ys =>
    show pyStartsWith (x ++ " " ++ joinSpace (y :: ys)) x = true
    unfold pyStartsWith
    rw [String.data_append, String.data_append, List.append_assoc]
    exact charsPrefixOf_self_append _ _

/-- Searching for a one-character pattern is exactly character membership. -/
theorem substrAux_single (c : Char) (l : List Char) :
    substrAux [c] l = true ↔ c ∈ l := by
  induction l with
  | nil => simp [substrAux, charsPrefixOf]
  | cons a as ih => simp [substrAux, charsPrefixOf, ih]

/-- Lines produced by the split contain no line feed, provided the
accumulated current line does not. -/
theorem splitlinesAux_no_lf (l acc : List Char)
    (hacc : ∀ c ∈ acc, c ≠ '\x0a') :
    ∀ s ∈ splitlinesAux l acc, ∀ c ∈ s.data, c ≠ '\x0a' := by
  induction l, acc using splitlinesAux.induct with
  | case1 acc hemp =>
    intro s hs
    rw [splitlinesAux.eq_1, if_pos hemp] at hs
    cases hs
  | case2 acc hemp =>
    intro s hs
    rw [splitlinesAux.eq_1, if_neg hemp] at hs
    rcases List.mem_singleton.mp hs with rfl
    intro c hc
    exact hacc c (by simpa using hc)
  | case3 rest acc ih =>
    intro s hs
    rw [splitlinesAux.eq_2] at hs
    rcases List.mem_cons.mp hs with rfl | hs
    · intro c hc
      exact hacc c (by simpa using hc)
    · exact ih (by simp) s hs
  | case4 rest acc hne ih =>
    intro s hs
    rw [splitlinesAux.eq_3 _ _ hne] at hs
    rcases List.mem_cons.mp hs with rfl | hs
    · intro c hc
      exact hacc c (by simpa using hc)
    · exact ih (by simp) s hs
  | case5 rest acc ih =>
    intro s hs
    rw [splitlinesAux.eq_4] at hs
    rcases List.mem_cons.mp hs with rfl | hs
    · intro c hc
      exact hacc c (by simpa using hc)
    · exact ih (by simp) s hs
  | case6 c rest acc h1 h2 h3 ih =>
    intro s hs
    rw [splitlinesAux.eq_5 _ _ _ h1 h2 h3] at hs
    refine ih ?_ s hs
    intro d hd
    rcases List.mem_cons.mp hd with rfl | hd
    · exact fun hdeq => h3 hdeq
    · exact hacc d hd

/-- A line of `pySplitlines` contains no line feed. -/
theorem pySplitlines_no_lf (s : String) (l : String) (hl : l ∈ pySplitlines s) :
    ∀ c ∈ l.data, c ≠ '\x0a' :=
  splitlinesAux_no_lf s.data [] (by simp) l hl

/-- The space-joined string of line-feed-free parts is line-feed-free. -/
theorem joinSpace_no_lf (parts : List String)
    (h : ∀ p ∈ parts, ∀ c ∈ p.data, c ≠ '\x0a') :
    ∀ c ∈ (joinSpace parts).data, c ≠ '\x0a' := by
  induction parts with
  | nil => intro c hc; cases hc
  | cons x xs ih =>
    cases xs with
    | nil => exact h x (by simp)
    | cons y ys =>
      intro c hc
      rw [joinSpace] at hc
      rw [String.data_append, String.data_append] at hc
      rcases List.mem_append.mp hc with hc | hc
      · rcases List.mem_append.mp hc with hc | hc
        · exact h x (by simp) c hc
        · intro hceq
          subst hceq
          simp at hc
      · exact ih (fun p hp => h p (List.mem_cons_of_mem x hp)) c hc

/-- A string whose characters avoid the line feed counts zero line feeds. -/
theorem count_lf_zero (s : String) (h : ∀ c ∈ s.data, c ≠ '\x0a') :
    s.data.count '\x0a' = 0 :=
  List.count_eq_zero.mpr (fun hm => h _ hm rfl)

/-- Output of `check_network_status` contains no line feed. -/
theorem check_network_status_no_lf (r : Option String) :
    ∀ c ∈ (check_network_status r).data, c ≠ '\x0a' := by
  cases r with
  | none => intro c hc; cases hc
  | some s =>
    refine joinSpace_no_lf _ ?_
    intro p hp
    exact pySplitlines_no_lf s p (List.mem_of_mem_filter hp)

/-- Output of `check_rf_status` contains no line feed. -/
theorem check_rf_status_no_lf (r : Option String) :
    ∀ c ∈ (check_rf_status r).data, c ≠ '\x0a' := by
  cases r with
  | none => intro c hc; cases hc
  | some s =>
    refine joinSpace_no_lf _ ?_
    intro p hp
    exact pySplitlines_no_lf s p (List.mem_of_mem_filter hp)

/-- Every entry the message-read stage appends is line-feed-free. -/
theorem msgStagePart_no_lf (r : Option String) :
    ∀ p ∈ msgStagePart r, ∀ c ∈ p.data, c ≠ '\x0a' := by
  cases r with
  | none =>
    intro p hp
    rcases List.mem_singleton.mp hp with rfl
    decide
  | some s =>
    intro p hp
    rw [msgStagePart] at hp
    rcases List.mem_cons.mp hp with rfl | hp
    · decide
    · rcases hfind : (pySplitlines s).find? (fun l => hasSubstr l msg_in_response) with _ | l
      · rw [hfind] at hp; cases hp
      · rw [hfind] at hp
        rcases List.mem_singleton.mp hp with rfl
        exact pySplitlines_no_lf s p (List.mem_of_find?_eq_some hfind)

/-- Every entry a socket-status step appends is line-feed-free. -/
theorem sockStagePart_no_lf (r : Option String) :
    ∀ p ∈ sockStagePart r, ∀ c ∈ p.data, c ≠ '\x0a' := by
  cases r with
  | none => intro p hp; cases hp
  | some s =>
    intro p hp
    rw [sockStagePart] at hp
    rcases hfind : (pySplitlines s).find?
        (fun l => pyStartsWith l "#SI: 1" || pyStartsWith l "#SS: 1") with _ | l
    · rw [hfind] at hp; cases hp
    · rw [hfind] at hp
      rcases List.mem_singleton.mp hp with rfl
      exact pySplitlines_no_lf s p (List.mem_of_find?_eq_some hfind)

/-- Every entry of the socket-status loop is line-feed-free. -/
theorem sockLoop_no_lf (cmds : List String) (rs : List (Option String)) :
    ∀ p ∈ sockLoop cmds rs, ∀ c ∈ p.data, c ≠ '\x0a' := by
  induction cmds generalizing rs with
  | nil => intro p hp; cases hp
  | cons cmd cmds ih =>
    cases rs with
    | nil =>
      intro p hp
      rw [sockLoop] at hp
      rcases List.mem_append.mp hp with hp | hp
      · exact sockStagePart_no_lf none p hp
      · exact ih [] p hp
    | cons r rs =>
      intro p hp
      rw [sockLoop] at hp
      rcases List.mem_append.mp hp with hp | hp
      · exact sockStagePart_no_lf r p hp
      · exact ih rs p hp

/-- The TCP-probe result string contains no line feed. -/
theorem tcp_result_no_lf (resp : TcpResponses) :
    ∀ c ∈ (tcp_connection_test resp).1.data, c ≠ '\x0a' := by
  refine joinSpace_no_lf _ ?_
  intro p hp
  rcases List.mem_append.mp hp with hp | hp
  · exact msgStagePart_no_lf _ p hp
  · exact sockLoop_no_lf _ _ p hp

/-- When the timestamp is line-feed-free, a telemetry record contains
exactly one line feed: the terminator written by the source's
`f.write(...)`. -/
theorem telemetryRecord_count_lf (inp : TelemetryInput)
    (h : ∀ c ∈ inp.timestamp.data, c ≠ '\x0a') :
    (telemetryRecord inp).data.count '\x0a' = 1 := by
  rw [telemetryRecord]
  simp only [String.data_append, List.count_append]
  rw [count_lf_zero _ h,
      count_lf_zero _ (check_rf_status_no_lf inp.rfResp),
      count_lf_zero _ (tcp_result_no_lf inp.tcpResp),
      count_lf_zero _ (check_network_status_no_lf inp.nwEpsResp),
      count_lf_zero _ (check_network_status_no_lf inp.nwResp)]
  decide

/-- Abort behaviour of the configuration loop: at the first non-`None`
response lacking `"OK"` the loop returns `False`, having sent exactly the
commands up to and including the failing one. -/
theorem configLoop_abort (cmds : List String) (resps : List (Option String))
    (i : Nat) (r : String) (hi : i < cmds.length)
    (hr : resps.get? i = some (some r)) (hfail : hasSubstr r "OK" = false)
    (hmin : ∀ j s, j < i → resps.get? j = some (some s) →
      hasSubstr s "OK" = true) :
    configLoop cmds resps = (false, cmds.take (i + 1)) := by
  induction cmds generalizing resps i with
  | nil => exact absurd hi (by simp)
  | cons c cs ih =>
    cases resps with
    | nil => simp at hr
    | cons ro rs =>
      cases i with
      | zero =>
        rw [List.get?_cons_zero, Option.some_inj] at hr
        subst hr
        rw [configLoop, if_neg (by rw [hfail]; exact Bool.false_ne_true)]
        simp
      | succ i2 =>
        rw [List.get?_cons_succ] at hr
        have hi2 : i2 < cs.length := by simpa using hi
        have hmin2 : ∀ j s, j < i2 → rs.get? j = some (some s) →
            hasSubstr s "OK" = true := by
          intro j s hj hg
          exact hmin (j + 1) s (by omega) (by simpa using hg)
        have hrec := ih rs i2 hi2 hr hmin2
        cases ro with
        | none =>
          rw [configLoop, hrec]
          simp
        | some r0 =>
          have hok : hasSubstr r0 "OK" = true :=
            hmin 0 r0 (by omega) (by simp)
          rw [configLoop, if_pos hok, hrec]
          simp

/-- The polling loop performs at most as many polls as its retry budget. -/
theorem awaitRegLoop_le (oracle : Nat → Option String) :
    ∀ (n k : Nat), (awaitRegLoop oracle k n).2 ≤ n := by
  intro n
  induction n with
  | zero => intro k; simp [awaitRegLoop]
  | succ m ih =>
    intro k
    cases ho : oracle k with
    | none =>
      simp only [awaitRegLoop, ho]
      simpa using ih (k + 1)
    | some r =>
      by_cases h8 : hasSubstr r "8" = true
      · simp [awaitRegLoop, ho, h8]
      · simp only [awaitRegLoop, ho, if_neg h8]
        simpa using ih (k + 1)

/-- The polling loop returns success at the first successful poll, with the
poll count recording that attempt only. -/
theorem awaitRegLoop_first_success (oracle : Nat → Option String) :
    ∀ (n k i : Nat), i < n → pollSuccess oracle (k + i) = true →
      (∀ j, j < i → pollSuccess oracle (k + j) = false) →
      awaitRegLoop oracle k n = (true, i + 1) := by
  intro n
  induction n with
  | zero => intro k i hi; exact absurd hi (by omega)
  | succ m ih =>
    intro k i hi hsucc hmin
    cases i with
    | zero =>
      rw [Nat.add_zero] at hsucc
      cases ho : oracle k with
      | none => simp [pollSuccess, ho] at hsucc
      | some r =>
        have h8 : hasSubstr r "8" = true := by
          simpa [pollSuccess, ho] using hsucc
        simp [awaitRegLoop, ho, h8]
    | succ i2 =>
      have hfirst : pollSuccess oracle k = false := by
        have := hmin 0 (by omega)
        simpa using this
      have hsucc2 : pollSuccess oracle (k + 1 + i2) = true := by
        have heq : k + 1 + i2 = k + (i2 + 1) := by omega
        rw [heq]
        exact hsucc
      have hmin2 : ∀ j, j < i2 → pollSuccess oracle (k + 1 + j) = false := by
        intro j hj
        have heq : k + 1 + j = k + (j + 1) := by omega
        rw [heq]
        exact hmin (j + 1) (by omega)
      have hrec := ih (k + 1) i2 (by omega) hsucc2 hmin2
      cases ho : oracle k with
      | none =>
        simp [awaitRegLoop, ho, hrec]
      | some r =>
        have h8 : hasSubstr r "8" = false := by
          simpa [pollSuccess, ho] using hfirst
        simp [awaitRegLoop, ho, h8, hrec]

/-- When no poll in the budget succeeds, the loop exhausts the budget and
reports failure. -/
theorem awaitRegLoop_exhaust (oracle : Nat → Option String) :
    ∀ (n k : Nat), (∀ i, i < n → pollSuccess oracle (k + i) = false) →
      awaitRegLoop oracle k n = (false, n) := by
  intro n
  induction n with
  | zero => intro k _; rfl
  | succ m ih =>
    intro k hall
    have hfirst : pollSuccess oracle k = false := by
      have := hall 0 (by omega)
      simpa using this
    have hrec := ih (k + 1) (by
      intro i hi
      have heq : k + 1 + i = k + (i + 1) := by omega
      rw [heq]
      exact hall (i + 1) (by omega))
    cases ho : oracle k with
    | none => simp [awaitRegLoop, ho, hrec]
    | some r =>
      have h8 : hasSubstr r "8" = false := by
        simpa [pollSuccess, ho] using hfirst
      simp [awaitRegLoop, ho, h8, hrec]

/-- Counting the payload in one loop prologue. -/
theorem count_pump_cons (rest : List String) :
    ("AT#SSEND=1" :: pump_dummy_msg :: rest).count pump_dummy_msg
      = rest.count pump_dummy_msg + 1 := by
  have hne : ("AT#SSEND=1" == pump_dummy_msg) = false := by decide
  simp [List.count_cons, hne]

/-- The send loop sends at most as many payload messages as its budget. -/
theorem pumpLoop_count_le (oracle : Nat → Option String) :
    ∀ (n k : Nat), (pumpLoop oracle k n).count pump_dummy_msg ≤ n := by
  intro n
  induction n with
  | zero => intro k; simp [pumpLoop]
  | succ m ih =>
    intro k
    rw [pumpLoop]
    cases ho : oracle k with
    | none =>
      rw [count_pump_cons]
      exact Nat.add_le_add_right (ih (k + 1)) 1
    | some r =>
      simp only []
      by_cases hOK : hasSubstr r "OK" = true
      · rw [if_pos hOK, count_pump_cons]
        exact Nat.add_le_add_right (ih (k + 1)) 1
      · rw [if_neg hOK, count_pump_cons]
        simp

/-- After a payload message whose response is non-`None` and lacks
`"OK"`, the send loop sends no further payload message: the payload count
is bounded by the index of the failing message plus one. -/
theorem pumpLoop_stop (oracle : Nat → Option String) :
    ∀ (n k i : Nat) (r : String), oracle (k + i) = some r →
      hasSubstr r "OK" = false →
      (pumpLoop oracle k n).count pump_dummy_msg ≤ i + 1 := by
  intro n
  induction n with
  | zero => intro k i r _ _; simp [pumpLoop]
  | succ m ih =>
    intro k i r ho hfail
    rw [pumpLoop]
    cases i with
    | zero =>
      rw [Nat.add_zero] at ho
      rw [ho]
      simp only []
      rw [if_neg (by rw [hfail]; exact Bool.false_ne_true), count_pump_cons]
      simp
    | succ i2 =>
      have ho2 : oracle (k + 1 + i2) = some r := by
        have heq : k + 1 + i2 = k + (i2 + 1) := by omega
        rw [heq]
        exact ho
      have hrec := ih (k + 1) i2 r ho2 hfail
      cases hk : oracle k with
      | none =>
        simp only []
        rw [count_pump_cons]
        omega
      | some r0 =>
        simp only []
        by_cases hOK : hasSubstr r0 "OK" = true
        · rw [if_pos hOK, count_pump_cons]
          omega
        · rw [if_neg hOK, count_pump_cons]
          simp

/-- The send loop sends only the send preamble and the payload message. -/
theorem pumpLoop_mem (oracle : Nat → Option String) :
    ∀ (n k : Nat) (c : String), c ∈ pumpLoop oracle k n →
      c = "AT#SSEND=1" ∨ c = pump_dummy_msg := by
  intro n
  induction n with
  | zero => intro k c hc; simp [pumpLoop] at hc
  | succ m ih =>
    intro k c hc
    rw [pumpLoop] at hc
    rcases List.mem_cons.mp hc with rfl | hc
    · exact Or.inl rfl
    rcases List.mem_cons.mp hc with rfl | hc
    · exact Or.inr rfl
    cases hk : oracle k with
    | none =>
      rw [hk] at hc
      exact ih (k + 1) c hc
    | some r0 =>
      rw [hk] at hc
      simp only [] at hc
      by_cases hOK : hasSubstr r0 "OK" = true
      · rw [if_pos hOK] at hc
        exact ih (k + 1) c hc
      · rw [if_neg hOK] at hc
        cases hc

/-- The payload count of the whole burst equals that of its send loop:
the session-management commands are distinct from the payload. -/
theorem pump_count_eq (oracle : Nat → Option String) (n : Nat) :
    (pump_data_to_server oracle n).count pump_dummy_msg
      = (pumpLoop oracle 0 n).count pump_dummy_msg := by
  have h1 : ("AT#SGACT=1,1" == pump_dummy_msg) = false := by decide
  have h2 : ("AT#SD=1,0,7,\"echo.u-blox.com\",0,0,1" == pump_dummy_msg) = false :=
    by decide
  have h3 : ("AT#SH=1" == pump_dummy_msg) = false := by decide
  simp [pump_data_to_server, List.count_cons, List.count_append, h1, h2, h3]

/-- C1: for every ordered list of configuration commands, if a command's
response text lacks the generic success marker `"OK"` (taking the first
such response, index `i`), `configure_sim_module` returns failure and
sends no subsequent command of the configuration sequence: exactly the
commands up to and including the failing one are sent. -/
theorem configure_abort_on_failure (cmds : List String)
    (resps : List (Option String)) (i : Nat) (r : String)
    (hi : i < cmds.length) (hr : resps.get? i = some (some r))
    (hfail : hasSubstr r "OK" = false)
    (hmin : ∀ j s, j < i → resps.get? j = some (some s) →
      hasSubstr s "OK" = true) :
    configLoop cmds resps = (false, cmds.take (i + 1)) ∧
    ∀ (oracle : Nat → Option String) (n : Nat),
      configure_sim_module cmds resps oracle n = false := by
  have h := configLoop_abort cmds resps i r hi hr hfail hmin
  refine ⟨h, fun oracle n => ?_⟩
  simp [configure_sim_module, h]

/-- Witness for C1: an `"ERROR"` response to the first configuration
command aborts `configure_sim_module` after sending only `"AT"`. -/
theorem configure_abort_on_failure_witness :
    configLoop cfg_commands [some "ERROR"] = (false, ["AT"]) :=
  (configure_abort_on_failure cfg_commands [some "ERROR"] 0 "ERROR"
    (by decide) rfl (by decide)
    (fun j s hj _ => absurd hj (Nat.not_lt_zero j))).1

/-- C2: for every retry budget, the registration-polling phase performs at
most that many polls; it returns success at the first poll whose response
contains the attachment indicator, consuming only the polls up to it; and
it returns failure after exactly the full budget when no poll succeeds. -/
theorem await_registration_spec (oracle : Nat → Option String) (n : Nat) :
    (await_registration oracle n).2 ≤ n ∧
    (∀ i, i < n → pollSuccess oracle i = true →
      (∀ j, j < i → pollSuccess oracle j = false) →
      await_registration oracle n = (true, i + 1)) ∧
    ((∀ i, i < n → pollSuccess oracle i = false) →
      await_registration oracle n = (false, n)) := by
  refine ⟨awaitRegLoop_le oracle n 0, fun i hi hs hm => ?_, fun hall => ?_⟩
  · have := awaitRegLoop_first_success oracle n 0 i hi (by simpa using hs)
      (fun j hj => by simpa using hm j hj)
    exact this
  · exact awaitRegLoop_exhaust oracle n 0 (fun i hi => by simpa using hall i hi)

/-- Witness for C2: a first poll containing `'8'` succeeds with one poll
consumed out of a budget of 15. -/
theorem await_registration_spec_witness :
    await_registration (fun _ => some "8") 15 = (true, 1) :=
  (await_registration_spec (fun _ => some "8") 15).2.1 0 (by decide)
    (by decide) (fun j hj => absurd hj (Nat.not_lt_zero j))

/-- C3: the registration success condition holds exactly when the response
contains the literal character `'8'` anywhere; the sample response
`+COPS: 0,0,"Orange F",8` succeeds on the first poll, and
`+COPS: 0,0,"Orange F",2` is counted as one failed attempt before the
next poll succeeds. -/
theorem registration_indicator_char :
    (∀ r : String, hasSubstr r "8" = true ↔ '8' ∈ r.data) ∧
    await_registration (fun _ => some "+COPS: 0,0,\"Orange F\",8") 15
      = (true, 1) ∧
    await_registration
      (fun i => if i = 0 then some "+COPS: 0,0,\"Orange F\",2"
                else some "+COPS: 0,0,\"Orange F\",8") 15 = (true, 2) := by
  refine ⟨fun r => ?_, by decide, by decide⟩
  exact substrAux_single '8' r.data

/-- Witness for C3: the sample successful response contains `'8'`. -/
theorem registration_indicator_char_witness :
    '8' ∈ ("+COPS: 0,0,\"Orange F\",8" : String).data :=
  (registration_indicator_char.1 "+COPS: 0,0,\"Orange F\",8").mp (by decide)

/-- C4: two full toggle cycles over the fixed pair {enable-radio,
disable-radio}, with every enable phase followed by a successful
re-registration check, write exactly two pumping markers and two
flight-mode markers, in alternating order. -/
theorem flight_cycle_markers (r1 r2 : String)
    (h1 : hasSubstr r1 "8" = true) (h2 : hasSubstr r2 "8" = true) :
    runFlightCycles 2 [some r1, some r2]
      = [pump_marker, flight_marker, pump_marker, flight_marker] ∧
    (runFlightCycles 2 [some r1, some r2]).count pump_marker = 2 ∧
    (runFlightCycles 2 [some r1, some r2]).count flight_marker = 2 := by
  have e1 : hasSubstr "AT+CFUN=1" "1" = true := by decide
  have e2 : hasSubstr "AT+CFUN=4" "1" = false := by decide
  have e3 : hasSubstr "AT+CFUN=4" "4" = true := by decide
  have key : runFlightCycles 2 [some r1, some r2]
      = [pump_marker, flight_marker, pump_marker, flight_marker] := by
    simp [runFlightCycles, runFlightCmds, flight_mode_commands, e1, e2, e3,
      h1, h2]
  refine ⟨key, ?_, ?_⟩ <;> rw [key] <;> decide

/-- Witness for C4: with the sample attached response on both enable
phases, the markers alternate over two cycles. -/
theorem flight_cycle_markers_witness :
    runFlightCycles 2
        [some "+COPS: 0,0,\"Orange F\",8", some "+COPS: 0,0,\"Orange F\",8"]
      = [pump_marker, flight_marker, pump_marker, flight_marker] :=
  (flight_cycle_markers "+COPS: 0,0,\"Orange F\",8"
    "+COPS: 0,0,\"Orange F\",8" (by decide) (by decide)).1

/-- C5: whatever the stage responses, the TCP probe sends every stage's
commands (no failure aborts it), and when the message-read stage returns
no response the result records the explicit `"#MSG: None"` marker as the
message-response field, at the front of the probe's result string. -/
theorem tcp_probe_all_stages (resp : TcpResponses) :
    (tcp_connection_test resp).2
      = tcp_connect_commands ++ message_to_server ++ [message_from_server]
        ++ socket_commands ∧
    (resp.msgFromResp = none →
      (tcpParts resp).head? = some "#MSG: None" ∧
      pyStartsWith (tcp_connection_test resp).1 "#MSG: None" = true) := by
  refine ⟨rfl, fun h => ?_⟩
  have hparts : tcpParts resp
      = "#MSG: None" :: sockLoop socket_commands resp.sockResp := by
    simp [tcpParts, msgStagePart, h]
  refine ⟨by rw [hparts]; rfl, ?_⟩
  show pyStartsWith (joinSpace (tcpParts resp)) "#MSG: None" = true
  rw [hparts]
  exact pyStartsWith_joinSpace "#MSG: None" _

/-- Witness for C5: with a `None` message-read response the probe's parts
begin with the `"#MSG: None"` marker. -/
theorem tcp_probe_all_stages_witness :
    (tcpParts ⟨[], [], none, []⟩).head? = some "#MSG: None" :=
  ((tcp_probe_all_stages ⟨[], [], none, []⟩).2 rfl).1

/-- C6: for rsrp = -90, rssi = -95, any rsrq ≥ -5 and any sinr ≥ 12.5,
the component scores are 30, 10, 40 and 40, and the overall quality is
(30+10+40+40)/4 = 30. -/
theorem signal_quality_sample (rsrq sinr : ℚ)
    (h1 : -5 ≤ rsrq) (h2 : (12.5 : ℚ) ≤ sinr) :
    rsrp_quality (-90) = 30 ∧ rssi_quality (-95) = 10 ∧
    rsrq_quality (-95) rsrq = 40 ∧ sinr_quality sinr = 40 ∧
    calculate_signal_quality (-90) (-95) rsrq sinr = 30 := by
  have e1 : rsrp_quality (-90) = 30 := by norm_num [rsrp_quality]
  have e2 : rssi_quality (-95) = 10 := by norm_num [rssi_quality]
  have e3 : rsrq_quality (-95) rsrq = 40 := by
    rw [rsrq_quality, if_pos h1]
  have e4 : sinr_quality sinr = 40 := by
    rw [sinr_quality, if_pos h2]
  refine ⟨e1, e2, e3, e4, ?_⟩
  rw [calculate_signal_quality, e1, e2, e3, e4]
  norm_num

/-- Witness for C6: the sample values rsrq = 0 and sinr = 13. -/
theorem signal_quality_sample_witness :
    (-5 : ℚ) ≤ 0 ∧ (12.5 : ℚ) ≤ 13 ∧
    calculate_signal_quality (-90) (-95) 0 13 = 30 :=
  ⟨by norm_num, by norm_num,
    (signal_quality_sample 0 13 (by norm_num) (by norm_num)).2.2.2.2⟩

/-- C7: for every message budget, the bulk data-pump burst sends at most
that many payload messages; between the session-opening and
session-closing commands only the send preamble and the payload circulate;
and after a payload whose response lacks the success marker no further
payload message is sent. -/
theorem pump_burst_bounded (oracle : Nat → Option String) (n : Nat) :
    (pump_data_to_server oracle n).count pump_dummy_msg ≤ n ∧
    (∀ c, c ∈ pumpLoop oracle 0 n → c = "AT#SSEND=1" ∨ c = pump_dummy_msg) ∧
    ∀ (i : Nat) (r : String), oracle i = some r → hasSubstr r "OK" = false →
      (pump_data_to_server oracle n).count pump_dummy_msg ≤ i + 1 := by
  refine ⟨?_, fun c hc => pumpLoop_mem oracle n 0 c hc, fun i r ho hfail => ?_⟩
  · rw [pump_count_eq]
    exact pumpLoop_count_le oracle n 0
  · rw [pump_count_eq]
    exact pumpLoop_stop oracle n 0 i r (by simpa using ho) hfail

/-- Witness for C7: a failing first payload response stops the burst after
one payload message. -/
theorem pump_burst_bounded_witness :
    (pump_data_to_server (fun _ => some "ERROR") 5).count pump_dummy_msg
      ≤ 0 + 1 :=
  (pump_burst_bounded (fun _ => some "ERROR") 5).2.2 0 "ERROR" rfl (by decide)

/-- C8: every record the telemetry loop appends is the timestamp, the
RF-status text, the TCP-probe text, the EPS registration-status text and
the legacy registration-status text, in that order, separated by `':'`;
and (for a line-feed-free timestamp) it is one line: it contains exactly
one line feed, the trailing one. -/
theorem telemetry_record_format (inps : List TelemetryInput) (rec : String)
    (h : rec ∈ read_and_log_modem_data inps) :
    ∃ inp, inp ∈ inps ∧
      rec = inp.timestamp ++ ":" ++ check_rf_status inp.rfResp ++ ":"
        ++ (tcp_connection_test inp.tcpResp).1 ++ ":"
        ++ check_network_status inp.nwEpsResp ++ ":"
        ++ check_network_status inp.nwResp ++ "\n" ∧
      ((∀ c ∈ inp.timestamp.data, c ≠ '\x0a') →
        rec.data.count '\x0a' = 1) := by
  induction inps with
  | nil => cases h
  | cons i0 rest ih =>
    rw [read_and_log_modem_data] at h
    rcases List.mem_cons.mp h with rfl | h2
    · exact ⟨i0, List.mem_cons_self i0 rest, rfl,
        fun hts => telemetryRecord_count_lf i0 hts⟩
    · obtain ⟨inp, hmem, hfmt, hcnt⟩ := ih h2
      exact ⟨inp, List.mem_cons_of_mem i0 hmem, hfmt, hcnt⟩

/-- Witness for C8: the record of the all-`None` iteration input. -/
theorem telemetry_record_format_witness :
    ∃ inp, inp ∈ [inp0] ∧
      telemetryRecord inp0 = inp.timestamp ++ ":"
        ++ check_rf_status inp.rfResp ++ ":"
        ++ (tcp_connection_test inp.tcpResp).1 ++ ":"
        ++ check_network_status inp.nwEpsResp ++ ":"
        ++ check_network_status inp.nwResp ++ "\n" ∧
      ((∀ c ∈ inp.timestamp.data, c ≠ '\x0a') →
        (telemetryRecord inp0).data.count '\x0a' = 1) :=
  telemetry_record_format [inp0] (telemetryRecord inp0)
    (by rw [read_and_log_modem_data]; exact List.mem_cons_self _ _)

/-- C9: a registration poll whose exchange yields `None` or an empty
response is inconclusive: the loop continues exactly as with one attempt
fewer, the poll count grows by one, and the outcome is whatever the
remaining attempts produce. -/
theorem poll_inconclusive_consumes_one (oracle : Nat → Option String)
    (k rem : Nat) (h : oracle k = none ∨ oracle k = some "") :
    awaitRegLoop oracle k (rem + 1)
      = ((awaitRegLoop oracle (k + 1) rem).1,
         (awaitRegLoop oracle (k + 1) rem).2 + 1) := by
  rcases h with h | h
  · simp [awaitRegLoop, h]
  · have h8 : hasSubstr "" "8" = false := by decide
    simp [awaitRegLoop, h, h8]

/-- Witness for C9: a `None` response on the single available attempt. -/
theorem poll_inconclusive_consumes_one_witness :
    awaitRegLoop (fun _ => none) 0 1
      = ((awaitRegLoop (fun _ => none) 1 0).1,
         (awaitRegLoop (fun _ => none) 1 0).2 + 1) :=
  poll_inconclusive_consumes_one (fun _ => none) 0 0 (Or.inl rfl)

/-- C10: once rsrq < -5, the RSRQ component is determined by the rssi
argument (30 when rssi ≥ -6, else 10); the overall quality is then
independent of the exact rsrq value; and the RSRQ component never takes
the value 20. -/
theorem rsrq_component_from_rssi (rsrp rssi : ℤ) (rsrq rsrq2 sinr : ℚ)
    (h : rsrq < -5) (h2 : rsrq2 < -5) :
    rsrq_quality rssi rsrq = (if rssi ≥ -6 then 30 else 10) ∧
    calculate_signal_quality rsrp rssi rsrq sinr
      = calculate_signal_quality rsrp rssi rsrq2 sinr ∧
    (∀ (rssiA : ℤ) (rsrqA : ℚ), rsrq_quality rssiA rsrqA ≠ 20) := by
  have key : ∀ q : ℚ, q < -5 →
      rsrq_quality rssi q = (if rssi ≥ -6 then 30 else 10) := by
    intro q hq
    rw [rsrq_quality, if_neg (by linarith)]
  refine ⟨key rsrq h, ?_, ?_⟩
  · rw [calculate_signal_quality, calculate_signal_quality, key rsrq h,
      key rsrq2 h2]
  · intro rssiA rsrqA
    rw [rsrq_quality]
    split
    · norm_num
    · split <;> norm_num

/-- Witness for C10: rsrq = -6 (below the -5 threshold) with rssi = 0. -/
theorem rsrq_component_from_rssi_witness :
    (-6 : ℚ) < -5 ∧
    rsrq_quality 0 (-6) = (if (0 : ℤ) ≥ -6 then 30 else 10) :=
  ⟨by norm_num,
    (rsrq_component_from_rssi 0 0 (-6) (-7) 0 (by norm_num) (by norm_num)).1⟩

end GnssPerf
